import Mathlib

/-!
Verification development for the notebook-to-project conversion core of the
MLOps_converter repository (src/converter/notebook_parser.py,
src/converter/dependency_analyzer.py, src/converter/code_generator.py).

The Python code is shallowly embedded: strings are Lean `String`s processed
at the character-list level, Python sets become `Finset String`, dictionaries
built by keyed appends become functions `String → List _`, and the fallible
notebook parse becomes `Except`.  Each definition follows the corresponding
Python function; Python standard-library helpers (str.strip, str.split,
str.lower, the two import regexes, ast.parse restricted to the import
fragment) are modelled explicitly below.
-/

namespace MLOpsConverter

/-- Python whitespace (the characters matched by str.strip and the regex
class for whitespace, ASCII range). -/
def pySpace (c : Char) : Bool :=
  c == ' ' || c == '\t' || c == '\n' || c == '\r' || c == '\x0b' || c == '\x0c'

/-- Split a character list at every separator character, keeping empty
pieces: the model of Python str.split(sep) for a one-character sep. -/
def splitOnPred (p : Char → Bool) : List Char → List (List Char)
  | [] => [[]]
  | c :: cs =>
    let r := splitOnPred p cs
    if p c then [] :: r
    else
      match r with
      | [] => [[c]]
      | l :: ls => (c :: l) :: ls

def splitOnChar (sep : Char) (l : List Char) : List (List Char) :=
  splitOnPred (fun c => c == sep) l

/-- Whitespace split dropping empty pieces: the model of Python
str.split() with no argument. -/
def wsSplit (l : List Char) : List (List Char) :=
  (splitOnPred pySpace l).filter (fun t => !t.isEmpty)

/-- Strip leading and trailing Python whitespace: str.strip(). -/
def stripChars (l : List Char) : List Char :=
  ((l.dropWhile pySpace).reverse.dropWhile pySpace).reverse

def pyStrip (s : String) : String :=
  String.mk (stripChars s.data)

/-- Model of `not source.strip()`: the source is empty or all whitespace. -/
def is_blank (s : String) : Bool :=
  (stripChars s.data).isEmpty

/-- str.lower(), ASCII model. -/
def pyLower (s : String) : String :=
  String.mk (s.data.map Char.toLower)

/-- Does the pattern occur at the head of the text? -/
def seqLeads : List Char → List Char → Bool
  | [], _ => true
  | _ :: _, [] => false
  | p :: ps, c :: cs => p == c && seqLeads ps cs

/-- Does the pattern occur anywhere in the text?  Model of the Python
substring test `pat in s`. -/
def seqContains (pat : List Char) : List Char → Bool
  | [] => seqLeads pat []
  | c :: cs => seqLeads pat (c :: cs) || seqContains pat cs

def containsStr (s pat : String) : Bool :=
  seqContains pat.data s.data

def strLeads (s pat : String) : Bool :=
  seqLeads pat.data s.data

/-- name.split('.')[0]: everything before the first dot. -/
def headUntilDot (s : String) : String :=
  String.mk (s.data.takeWhile (fun c => c != '.'))

/-! ## Dependency analyzer: the structural (ast) path

`DependencyAnalyzer._extract_imports` calls `ast.parse` and walks the tree
collecting `alias.name.split('.')[0]` for every `ast.Import` name and
`node.module.split('.')[0]` for every `ast.ImportFrom` with a module.
`ast.parse` is the Python standard library; it is modelled here on the
fragment of Python the analysed cells exercise: files whose lines are
blank, comments, plain `import` statements, or `from ... import`
statements.  Any line outside this fragment makes the model parse fail
(conservatively sending the cell to the regex fallback, exactly the path
the Python code takes on a SyntaxError). -/

inductive PyStmt where
  | imp (names : List (String × Option String))
  | fromImp (module : String)
deriving DecidableEq, Repr

def isIdentStart (c : Char) : Bool := c.isAlpha || c == '_'

def isIdentChar (c : Char) : Bool := c.isAlphanum || c == '_'

def isIdent (l : List Char) : Bool :=
  match l with
  | [] => false
  | c :: cs => isIdentStart c && cs.all isIdentChar

def isDottedIdent (l : List Char) : Bool :=
  (splitOnChar '.' l).all isIdent

/-- Parse the comma-separated clauses of a plain `import` statement:
`a.b`, or `a.b as c`. -/
def parseImportNames (rest : List Char) : Option (List (String × Option String)) :=
  (splitOnChar ',' rest).mapM (fun part =>
    match wsSplit part with
    | [n] => if isDottedIdent n then some (String.mk n, none) else none
    | [n, a, al] =>
        if a == "as".data && isDottedIdent n && isIdent al then
          some (String.mk n, some (String.mk al))
        else none
    | _ => none)

/-- Validate the name list of a `from ... import` statement:
identifiers, aliased identifiers, or a star. -/
def validFromNames (rest : List Char) : Bool :=
  (splitOnChar ',' rest).all (fun part =>
    match wsSplit part with
    | [n] => isIdent n || n == "*".data
    | [n, a, al] => a == "as".data && isIdent n && isIdent al
    | _ => false)

/-- Parse one physical line.  `some none` means the line holds no
statement (blank or comment only); `none` means the whole parse fails
(SyntaxError in Python). -/
def parseLine (l : List Char) : Option (Option PyStmt) :=
  let t := l.takeWhile (fun c => c != '#')
  let core := stripChars t
  if core.isEmpty then some none
  else if pySpace (l.headD '_') then none
  else if seqLeads "import".data core then
    match core.drop 6 with
    | [] => none
    | r :: rs =>
      if pySpace r then
        match parseImportNames (stripChars (r :: rs)) with
        | some names => some (some (PyStmt.imp names))
        | none => none
      else none
  else if seqLeads "from".data core then
    match core.drop 4 with
    | [] => none
    | r :: rs =>
      if pySpace r then
        let rest := stripChars (r :: rs)
        let m := rest.takeWhile (fun c => !pySpace c)
        if isDottedIdent m then
          let after := stripChars (rest.drop m.length)
          if seqLeads "import".data after then
            match after.drop 6 with
            | [] => none
            | r2 :: rs2 =>
              if pySpace r2 && validFromNames (stripChars (r2 :: rs2)) then
                some (some (PyStmt.fromImp (String.mk m)))
              else none
          else none
        else none
      else none
  else none

/-- Model of ast.parse on the import fragment (see above). -/
def pyParse (code : String) : Option (List PyStmt) :=
  match (splitOnChar '\n' code.data).mapM parseLine with
  | some opts => some (opts.filterMap id)
  | none => none

/-- The ast.walk collection loop of `_extract_imports`. -/
def ast_extract_imports (stmts : List PyStmt) : Finset String :=
  stmts.foldl (fun acc st =>
    match st with
    | PyStmt.imp names => names.foldl (fun a nm => insert (headUntilDot nm.1) a) acc
    | PyStmt.fromImp m => insert (headUntilDot m) acc) ∅

/-! ## Dependency analyzer: the regex fallback path

`_extract_imports_regex` runs two MULTILINE regexes over the cell source.
Because the anchor only matches at line starts and neither capture can
cross a newline, findall is equivalent to matching each physical line
separately; the models below reproduce the per-line match, including the
backtracking of the greedy whitespace run when the capture after it would
be empty. -/

/-- Per-line model of the first findall pattern (leading whitespace,
the word import, at least one whitespace, then a capture of characters
other than newline and hash).  Returns the captured text. -/
def lineImportCapture (l : List Char) : Option (List Char) :=
  let l1 := l.dropWhile pySpace
  if seqLeads "import".data l1 then
    let r := l1.drop 6
    let k := (r.takeWhile pySpace).length
    if k == 0 then none
    else
      let cap := (r.drop k).takeWhile (fun c => c != '#')
      if !cap.isEmpty then some cap
      else if k ≥ 2 then some [(r.take k).getLastD ' ']
      else none
  else none

/-- Per-line model of the second findall pattern (leading whitespace,
the word from, whitespace, a capture of non-whitespace non-hash
characters, whitespace, then the word import). -/
def lineFromCapture (l : List Char) : Option (List Char) :=
  let l1 := l.dropWhile pySpace
  if seqLeads "from".data l1 then
    let r := l1.drop 4
    let k := (r.takeWhile pySpace).length
    if k == 0 then none
    else
      let r2 := r.drop k
      let m := r2.takeWhile (fun c => !pySpace c && c != '#')
      if m.isEmpty then none
      else
        let rest := r2.drop m.length
        let k2 := (rest.takeWhile pySpace).length
        if k2 == 0 then none
        else if seqLeads "import".data (rest.drop k2) then some m
        else none
  else none

/-- Per captured import clause list: lib.strip().split('.')[0] for each
comma-separated piece. -/
def regexImportContrib (cap : List Char) : List String :=
  (splitOnChar ',' cap).map (fun p => headUntilDot (String.mk (stripChars p)))

/-- `DependencyAnalyzer._extract_imports_regex`. -/
def extract_imports_regex (code : String) : Finset String :=
  (splitOnChar '\n' code.data).foldl (fun acc line =>
    let acc1 :=
      match lineImportCapture line with
      | some cap => (regexImportContrib cap).foldl (fun a s => insert s a) acc
      | none => acc
    match lineFromCapture line with
    | some m => insert (headUntilDot (String.mk m)) acc1
    | none => acc1) ∅

/-- `DependencyAnalyzer._extract_imports`: the structural path, falling
back to the regex path when the structural parse fails. -/
def extract_imports (code : String) : Finset String :=
  match pyParse code with
  | some stmts => ast_extract_imports stmts
  | none => extract_imports_regex code

/-! ## Dependency analyzer: report assembly

The four category membership predicates (`_is_standard_lib`,
`_is_data_science_lib`, `_is_ml_framework`, `_is_visualization_lib`) and
`_generate_requirements` are called by `analyze_dependencies` but are not
defined anywhere in the repository, so they are modelled from the spec. -/

/-- Modelled from the spec: `_is_standard_lib` is missing from the
repository; the spec describes it as a static standard-library membership
predicate. -/
def standard_lib_names : List String :=
  ["os", "sys", "json", "re", "math", "ast", "pathlib", "typing",
   "collections", "itertools", "datetime"]

/-- Modelled from the spec: `_is_data_science_lib` is missing from the
repository; a static list of known data-science library names. -/
def data_science_names : List String :=
  ["numpy", "pandas", "scipy", "statsmodels"]

/-- Modelled from the spec: `_is_ml_framework` is missing from the
repository; a static list of known ML-framework names. -/
def ml_framework_names : List String :=
  ["sklearn", "tensorflow", "torch", "keras", "xgboost"]

/-- Modelled from the spec: `_is_visualization_lib` is missing from the
repository; a static list of known visualization library names. -/
def visualization_names : List String :=
  ["matplotlib", "seaborn", "plotly", "bokeh"]

def is_standard_lib (s : String) : Bool := standard_lib_names.contains s

def is_data_science_lib (s : String) : Bool := data_science_names.contains s

def is_ml_framework (s : String) : Bool := ml_framework_names.contains s

def is_visualization_lib (s : String) : Bool := visualization_names.contains s

/-- The `import_patterns` mapping built in `DependencyAnalyzer.__init__`,
in its insertion order. -/
def import_patterns : List (String × (String → Bool)) :=
  [("standard_lib", is_standard_lib),
   ("data_science", is_data_science_lib),
   ("ml_frameworks", is_ml_framework),
   ("visualization", is_visualization_lib)]

/-- Modelled from the spec: `_generate_requirements` is missing from the
repository; the spec says requirements is simply the aggregated
identifier set rendered as a flat list with no version pins (the spec
promises no ordering, so any enumeration of the set is faithful; the
model enumerates it in sorted order to stay executable). -/
def generate_requirements (deps : Finset String) : List String :=
  deps.sort (· ≤ ·)

/-- A parsed cell as the downstream components consume it: the fields of
the dictionaries produced by `NotebookParser._extract_cells` that
`DependencyAnalyzer` and `CodeGenerator` read. -/
structure Cell where
  cell_type : String
  source : String
  category : String
deriving DecidableEq, Repr

/-- The aggregation loop of `analyze_dependencies`: union the extracted
imports of every code cell. -/
def all_imports_of (cells : List Cell) : Finset String :=
  cells.foldl (fun acc c =>
    if c.cell_type = "code" then acc ∪ extract_imports c.source else acc) ∅

structure DepReport where
  all_dependencies : Finset String
  categorized : List (String × Finset String)
  requirements : List String
deriving DecidableEq

/-- `DependencyAnalyzer.analyze_dependencies`. -/
def analyze_dependencies (cells : List Cell) : DepReport :=
  let all_imports := all_imports_of cells
  { all_dependencies := all_imports
    categorized := import_patterns.map (fun p =>
      (p.1, all_imports.filter (fun lib => p.2 lib = true)))
    requirements := generate_requirements all_imports }

/-! ## Notebook parser: classification -/

/-- `NotebookParser._categorize_code_cell`. -/
def categorize_code_cell (source : String) : String :=
  if is_blank source then "empty"
  else
    let source_lower := pyLower source
    if ["import", "from "].any (fun p => containsStr source_lower p) then "imports"
    else if ["def ", "class ", "function"].any (fun p => containsStr source_lower p) then
      "function_definitions"
    else if ["model", "train", "fit", "compile"].any (fun p => containsStr source_lower p) then
      "model_training"
    else if ["plot", "visualize", "plt.", "seaborn"].any (fun p => containsStr source_lower p) then
      "visualization"
    else if ["preprocess", "clean", "transform"].any (fun p => containsStr source_lower p) then
      "data_processing"
    else if ["test", "assert", "check"].any (fun p => containsStr source_lower p) then
      "testing"
    else "general_code"

/-- `NotebookParser._categorize_markdown_cell`. -/
def categorize_markdown_cell (source : String) : String :=
  if is_blank source then "empty"
  else
    let source_lower := pyLower source
    if ["# introduction", "# overview", "# abstract"].any
        (fun p => containsStr source_lower p) then "introduction"
    else if ["# setup", "# installation", "# requirements"].any
        (fun p => containsStr source_lower p) then "setup"
    else if ["# data", "# dataset", "# loading"].any
        (fun p => containsStr source_lower p) then "data_description"
    else if ["# method", "# approach", "# methodology"].any
        (fun p => containsStr source_lower p) then "methodology"
    else if ["# result", "# output", "# finding"].any
        (fun p => containsStr source_lower p) then "results"
    else if ["# conclusion", "# summary", "# discussion"].any
        (fun p => containsStr source_lower p) then "conclusion"
    else if strLeads source_lower "#" || containsStr source_lower "##" then "section_header"
    else "documentation"

/-- The category dispatch of `NotebookParser._extract_cells`: code and
markdown cells go to their classifiers, anything else is other. -/
def assign_category (cell_type source : String) : String :=
  if cell_type = "code" then categorize_code_cell source
  else if cell_type = "markdown" then categorize_markdown_cell source
  else "other"

/-! ## Notebook parser: cell extraction and the version gate -/

/-- A raw cell source as found in the document: either a single string or
an ordered sequence of string fragments. -/
inductive RawSource where
  | str (s : String)
  | fragments (parts : List String)
deriving DecidableEq, Repr

/-- The source normalization of `_extract_cells`: a fragment list is
joined with no separator, a single string passes through. -/
def normalize_source : RawSource → String
  | RawSource.str s => s
  | RawSource.fragments parts => String.join parts

/-- A raw cell record of the document: cell_type defaults to code when
absent, source defaults to an empty fragment list.  The passthrough
metadata and outputs fields carry no behavior in the core and are not
modelled. -/
structure RawCell where
  cell_type : Option String
  source : RawSource
deriving DecidableEq, Repr

/-- The per-cell work of `NotebookParser._extract_cells`. -/
def extract_cell (c : RawCell) : Cell :=
  let cell_type := c.cell_type.getD "code"
  let source := normalize_source c.source
  { cell_type := cell_type
    source := source
    category := assign_category cell_type source }

/-- `NotebookParser._extract_cells`: the extraction loop. -/
def extract_cells (cells : List RawCell) : List Cell :=
  cells.map extract_cell

/-- The decoded notebook document handed to the core (file reading and
JSON decoding belong to the external loader). -/
structure RawNotebook where
  nbformat : Option Int
  cells : List RawCell
deriving DecidableEq, Repr

/-- A successfully parsed notebook, as `parse_notebook` returns it (the
passthrough metadata and kernel_info summaries carry no behavior in the
claims and are not modelled). -/
structure ParsedNotebook where
  cells : List Cell
deriving DecidableEq, Repr

def supported_versions : List Int := [4, 5]

/-- `NotebookParser.parse_notebook`: the version gate and cell
extraction.  An absent nbformat defaults to 4; an unsupported version is
rejected with a descriptive error and no partial result. -/
def parse_notebook (nb : RawNotebook) : Except String ParsedNotebook :=
  let nb_version := nb.nbformat.getD 4
  if nb_version ∈ supported_versions then
    Except.ok { cells := extract_cells nb.cells }
  else
    Except.error ("Unsupported notebook version: " ++ toString nb_version)

/-! ## Code generator -/

/-- The keyed-append step of `CodeGenerator._categorize_cells`: one loop
iteration appends the cell to the list stored under its category key. -/
def dict_append (d : String → List Cell) (c : Cell) : String → List Cell :=
  fun cat => if cat = c.category then d cat ++ [c] else d cat

/-- `CodeGenerator._categorize_cells`: the dictionary is modelled as the
function from key to stored list, absent keys mapping to the empty list
(a key is present in the Python dict exactly when its list is nonempty,
since keys are only created to receive an append). -/
def categorize_cells (cells : List Cell) : String → List Cell :=
  cells.foldl dict_append (fun _ => [])

/-- The per-cell indentation of `_generate_main_script`: every line of
the cell source, blank lines included, prefixed with four spaces. -/
def indent_cell (src : String) : String :=
  String.intercalate "\n" ((src.splitOn "\n").map (fun line => "    " ++ line))

/-- str.title() on space-separated alphabetic words: first letter
upper-cased, rest lower-cased (the model covers the alphabetic category
names this code applies it to). -/
def pyTitleWord (w : List Char) : List Char :=
  match w with
  | [] => []
  | c :: cs => c.toUpper :: cs.map Char.toLower

def pyTitle (s : String) : String :=
  String.intercalate " " ((splitOnChar ' ' s.data).map (fun w => String.mk (pyTitleWord w)))

/-- category.replace('_', ' ').title(), used for the section labels. -/
def category_label (cat : String) : String :=
  pyTitle (cat.replace "_" " ")

/-- The fixed list of header lines of the generated main script. -/
def main_header : List String :=
  ["#!/usr/bin/env python3", "\"\"\"",
   "Main execution script generated from Jupyter notebook", "\"\"\"", "\n"]

/-- The fixed category order of the execution section of the main
script. -/
def execution_categories : List String :=
  ["data_processing", "model_training", "visualization", "general_code"]

/-- One execution section of the main script: nothing when the category
holds no cell, otherwise the labeling comment, the indented cells, and a
trailing blank line. -/
def section_lines (categorized : String → List Cell) (cat : String) : List String :=
  if categorized cat = [] then []
  else ("    # " ++ category_label cat) ::
       ((categorized cat).map (fun c => indent_cell c.source) ++ [""])

/-- `CodeGenerator._generate_main_script`, applied to the categorized
cells of the parsed notebook as `generate_python_files` does. -/
def generate_main_script (cells : List Cell) : String :=
  let categorized := categorize_cells cells
  let l2 := if categorized "imports" = [] then main_header
            else main_header ++ (categorized "imports").map Cell.source ++ ["\n"]
  let l3 := l2 ++ ["def main():", "    \"\"\"Main execution function\"\"\""]
  let l4 := execution_categories.foldl (fun acc cat => acc ++ section_lines categorized cat) l3
  String.intercalate "\n" (l4 ++ ["\nif __name__ == \"__main__\":", "    main()"])

/-- The constant config.py text of `CodeGenerator._generate_config_files`. -/
def config_content : String :=
  "\"\"\"Configuration file for ML project\"\"\"\n\nimport os\nfrom pathlib import Path\n\n# Project structure\nPROJECT_ROOT = Path(__file__).parent\nDATA_DIR = PROJECT_ROOT / 'data'\nMODELS_DIR = PROJECT_ROOT / 'models'\nREPORTS_DIR = PROJECT_ROOT / 'reports'\n\n# Data configuration\nclass DataConfig:\n    RAW_DATA_PATH = DATA_DIR / 'raw'\n    PROCESSED_DATA_PATH = DATA_DIR / 'processed'\n    \nclass ModelConfig:\n    SAVE_PATH = MODELS_DIR / 'trained'\n    HYPERPARAMETERS = \x7b\n        'random_state': 42,\n        'test_size': 0.2\n    \x7d\n"

/-- `CodeGenerator._generate_config_files`: the emitted config module
text, as a function of the parsed notebook it is handed. -/
def generate_config_content (_nb : ParsedNotebook) : String :=
  config_content

/-! ## Spec-shaped companion definitions

The following definitions restate, directly from the spec's words, the
shapes the claims assert (document-order category selections, the
first-match-wins rule list, the per-category predicate lookup).  The
theorems below compare them with the embedded code. -/

/-- The cells of one category in original document order (the spec's
description of each category group of the main module). -/
def doc_cells (cells : List Cell) (cat : String) : List Cell :=
  cells.filter (fun c => c.category == cat)

/-- One execution section as the spec words it: a labeling comment, then
the category's cells in document order, indented, then a blank line;
nothing when the category is empty. -/
def spec_section (cells : List Cell) (cat : String) : List String :=
  if doc_cells cells cat = [] then []
  else ("    # " ++ category_label cat) ::
       ((doc_cells cells cat).map (fun c => indent_cell c.source) ++ [""])

/-- The ordered code-cell keyword rule list of the spec (rules 2-7; rule
1 is the emptiness test and rule 8 the catch-all). -/
def code_keyword_rules : List (String × List String) :=
  [("imports", ["import", "from "]),
   ("function_definitions", ["def ", "class ", "function"]),
   ("model_training", ["model", "train", "fit", "compile"]),
   ("visualization", ["plot", "visualize", "plt.", "seaborn"]),
   ("data_processing", ["preprocess", "clean", "transform"]),
   ("testing", ["test", "assert", "check"])]

/-- First-match-wins evaluation of an ordered keyword rule list over the
lowered source, with the catch-all category as default. -/
def first_match : List (String × List String) → String → String
  | [], _ => "general_code"
  | (cat, pats) :: rest, lowered =>
    if pats.any (fun p => containsStr lowered p) then cat
    else first_match rest lowered

/-- The markdown heading rule list (used to state that a markdown cell
matching none of them, and carrying no heading marker, falls through to
documentation). -/
def markdown_heading_rules : List (String × List String) :=
  [("introduction", ["# introduction", "# overview", "# abstract"]),
   ("setup", ["# setup", "# installation", "# requirements"]),
   ("data_description", ["# data", "# dataset", "# loading"]),
   ("methodology", ["# method", "# approach", "# methodology"]),
   ("results", ["# result", "# output", "# finding"]),
   ("conclusion", ["# conclusion", "# summary", "# discussion"])]

/-- Every category name the classifier can emit. -/
def all_category_names : List String :=
  ["empty", "imports", "function_definitions", "model_training",
   "visualization", "data_processing", "testing", "general_code",
   "introduction", "setup", "data_description", "methodology",
   "results", "conclusion", "section_header", "documentation", "other"]

/-- The membership predicate registered for a category name in
import_patterns (the everywhere-false predicate for unknown names). -/
def category_pred (name : String) : String → Bool :=
  (import_patterns.lookup name).getD (fun _ => false)

/-! ## Helper lemmas -/

theorem foldl_dict_append (cells : List Cell) (d : String → List Cell) (cat : String) :
    (cells.foldl dict_append d) cat = d cat ++ cells.filter (fun c => c.category == cat) := by
  induction cells generalizing d with
  | nil => simp
  | cons c cs ih =>
    simp only [List.foldl_cons, ih, List.filter_cons]
    by_cases h : c.category = cat
    · simp [dict_append, h]
    · simp [dict_append, h, Ne.symm h]

theorem categorize_cells_eq_doc_cells (cells : List Cell) (cat : String) :
    categorize_cells cells cat = doc_cells cells cat := by
  simpa [categorize_cells, doc_cells] using foldl_dict_append cells (fun _ => []) cat

theorem foldl_code_union_mem (cells : List Cell) (acc : Finset String) (x : String) :
    x ∈ cells.foldl
        (fun acc c => if c.cell_type = "code" then acc ∪ extract_imports c.source else acc) acc ↔
      x ∈ acc ∨ ∃ c ∈ cells, c.cell_type = "code" ∧ x ∈ extract_imports c.source := by
  induction cells generalizing acc with
  | nil => simp
  | cons c cs ih =>
    simp only [List.foldl_cons, ih, List.mem_cons]
    by_cases h : c.cell_type = "code"
    · simp only [if_pos h, Finset.mem_union]
      constructor
      · rintro (⟨hx | hx⟩ | ⟨c', hc', hcode, hx⟩)
        · exact Or.inl hx
        · exact Or.inr ⟨c, Or.inl rfl, h, hx⟩
        · exact Or.inr ⟨c', Or.inr hc', hcode, hx⟩
      · rintro (hx | ⟨c', (rfl | hc'), hcode, hx⟩)
        · exact Or.inl (Or.inl hx)
        · exact Or.inl (Or.inr hx)
        · exact Or.inr ⟨c', hc', hcode, hx⟩
    · simp only [if_neg h]
      constructor
      · rintro (hx | ⟨c', hc', hcode, hx⟩)
        · exact Or.inl hx
        · exact Or.inr ⟨c', Or.inr hc', hcode, hx⟩
      · rintro (hx | ⟨c', (rfl | hc'), hcode, hx⟩)
        · exact Or.inl hx
        · exact absurd hcode h
        · exact Or.inr ⟨c', hc', hcode, hx⟩

theorem mem_all_imports_of (x : String) (cells : List Cell) :
    x ∈ all_imports_of cells ↔
      ∃ c ∈ cells, c.cell_type = "code" ∧ x ∈ extract_imports c.source := by
  simpa [all_imports_of] using foldl_code_union_mem cells ∅ x

/-! ## Claim theorems -/

/-- Claim C7: source normalization is concatenation-faithful: a fragment
list normalizes to the direct concatenation of the fragments with no
inserted separator, identical to supplying the already-concatenated
single string; in particular the fragments of the example normalize to
the example's single string. -/
theorem normalize_source_concat (parts : List String) :
    normalize_source (RawSource.fragments parts) = String.join parts ∧
    normalize_source (RawSource.str (String.join parts)) = String.join parts ∧
    normalize_source (RawSource.fragments ["import os\n", "import sys"]) =
      "import os\nimport sys" := by
  exact ⟨rfl, rfl, by decide⟩

set_option maxRecDepth 8192 in
/-- Claim C8: the generated static configuration module text is one
fixed constant, byte-for-byte identical for any two parsed notebooks,
and that constant defines the project-root path constant, the data-path
and model-path groupings, and the hyperparameters random_state = 42 and
test_size = 0.2. -/
theorem config_content_input_independent (nb1 nb2 : ParsedNotebook) :
    generate_config_content nb1 = generate_config_content nb2 ∧
    generate_config_content nb1 = config_content ∧
    containsStr config_content "PROJECT_ROOT = Path(__file__).parent" = true ∧
    containsStr config_content "class DataConfig:" = true ∧
    containsStr config_content "class ModelConfig:" = true ∧
    containsStr config_content "'random_state': 42" = true ∧
    containsStr config_content "'test_size': 0.2" = true := by
  refine ⟨rfl, rfl, ?_, ?_, ?_, ?_, ?_⟩ <;> decide

/-- Claim C2 evaluated at the spec's own example cell: the structural
path yields the pair of top-level identifiers pandas and sklearn, but
the regex fallback keeps the alias clause intact and yields the string
made of pandas, a space, as, a space and pd instead of pandas, so the
two paths disagree on this well-formed input. -/
theorem regex_ast_divergence_on_aliased_import :
    extract_imports "import pandas as pd\nfrom sklearn.linear_model import LinearRegression" =
      ({"pandas", "sklearn"} : Finset String) ∧
    extract_imports_regex
        "import pandas as pd\nfrom sklearn.linear_model import LinearRegression" =
      ({"pandas as pd", "sklearn"} : Finset String) ∧
    extract_imports_regex
        "import pandas as pd\nfrom sklearn.linear_model import LinearRegression" ≠
      extract_imports "import pandas as pd\nfrom sklearn.linear_model import LinearRegression" := by
  refine ⟨?_, ?_, ?_⟩ <;> decide

/-- Claim C10: the code-cell keyword rules test raw substring
containment on the lower-cased source, so any non-blank code cell whose
lowered source contains the character sequence import anywhere is
classified imports, overriding all later rules. -/
theorem substring_import_rule_overrides (source : String)
    (hb : is_blank source = false)
    (h : containsStr (pyLower source) "import" = true) :
    assign_category "code" source = "imports" := by
  simp [assign_category, categorize_code_cell, hb, h]

/-- Witness for claim C10: a comment cell containing the word important
is classified imports. -/
theorem substring_import_rule_overrides_witness :
    assign_category "code" "# this is important" = "imports" :=
  substring_import_rule_overrides "# this is important" (by decide) (by decide)

/-- Claim C4: notebook parsing succeeds exactly when the format-version
marker, defaulting to 4 when absent, is 4 or 5; an absent marker parses;
any other marker yields a descriptive error and no partial result. -/
theorem parse_notebook_version_gate (nb : RawNotebook) :
    ((parse_notebook nb).isOk = true ↔
      (nb.nbformat.getD 4 = 4 ∨ nb.nbformat.getD 4 = 5)) ∧
    (nb.nbformat = none →
      parse_notebook nb = Except.ok { cells := extract_cells nb.cells }) ∧
    (∀ v : Int, nb.nbformat = some v → v ≠ 4 → v ≠ 5 →
      parse_notebook nb = Except.error ("Unsupported notebook version: " ++ toString v)) := by
  refine ⟨?_, ?_, ?_⟩
  · by_cases h : nb.nbformat.getD 4 ∈ supported_versions
    · simp only [parse_notebook, if_pos h, Except.isOk, Except.toBool]
      simpa [supported_versions] using h
    · simp only [parse_notebook, if_neg h, Except.isOk, Except.toBool]
      simpa [supported_versions] using h
  · intro h
    simp [parse_notebook, h, supported_versions]
  · intro v hv h4 h5
    simp [parse_notebook, hv, supported_versions, h4, h5]

/-- Witness for claim C4: the unsupported marker 2 is rejected with the
descriptive error and an absent marker parses. -/
theorem parse_notebook_version_gate_witness :
    parse_notebook { nbformat := some 2, cells := [] } =
      Except.error "Unsupported notebook version: 2" ∧
    parse_notebook { nbformat := none, cells := [] } =
      Except.ok { cells := [] } :=
  ⟨(parse_notebook_version_gate { nbformat := some 2, cells := [] }).2.2 2 rfl
      (by decide) (by decide),
   (parse_notebook_version_gate { nbformat := none, cells := [] }).2.1 rfl⟩

/-- Claim C1: for every cell sequence the dependency report's
categorized field pairs each of the four fixed category names with
exactly the subset of allDependencies satisfying that category's static
membership predicate, and the requirements field is the aggregated
identifier set rendered as a flat duplicate-free list of bare
identifiers with no version pins. -/
theorem dependency_report_shape (cells : List Cell) :
    ((analyze_dependencies cells).all_dependencies = all_imports_of cells) ∧
    ((analyze_dependencies cells).categorized.map Prod.fst =
      ["standard_lib", "data_science", "ml_frameworks", "visualization"]) ∧
    (∀ x, (∃ S, ("standard_lib", S) ∈ (analyze_dependencies cells).categorized ∧ x ∈ S) ↔
      x ∈ all_imports_of cells ∧ is_standard_lib x = true) ∧
    (∀ x, (∃ S, ("data_science", S) ∈ (analyze_dependencies cells).categorized ∧ x ∈ S) ↔
      x ∈ all_imports_of cells ∧ is_data_science_lib x = true) ∧
    (∀ x, (∃ S, ("ml_frameworks", S) ∈ (analyze_dependencies cells).categorized ∧ x ∈ S) ↔
      x ∈ all_imports_of cells ∧ is_ml_framework x = true) ∧
    (∀ x, (∃ S, ("visualization", S) ∈ (analyze_dependencies cells).categorized ∧ x ∈ S) ↔
      x ∈ all_imports_of cells ∧ is_visualization_lib x = true) ∧
    ((analyze_dependencies cells).requirements.toFinset = all_imports_of cells) ∧
    (analyze_dependencies cells).requirements.Nodup := by
  refine ⟨rfl, rfl, ?_, ?_, ?_, ?_, ?_, ?_⟩
  · intro x
    simp [analyze_dependencies, import_patterns, Prod.mk.injEq, Finset.mem_filter]
  · intro x
    simp [analyze_dependencies, import_patterns, Prod.mk.injEq, Finset.mem_filter]
  · intro x
    simp [analyze_dependencies, import_patterns, Prod.mk.injEq, Finset.mem_filter]
  · intro x
    simp [analyze_dependencies, import_patterns, Prod.mk.injEq, Finset.mem_filter]
  · simp [analyze_dependencies, generate_requirements, Finset.sort_toFinset]
  · simp [analyze_dependencies, generate_requirements, Finset.sort_nodup]

/-- Claim C3: a code cell whose source neither parses structurally nor
matches any fallback import pattern contributes the empty identifier
set, and removing it from the cell sequence leaves the aggregated
dependency set of the remaining cells unchanged (extraction is a total
function of the model, so no exception can escape it). -/
theorem unparseable_cell_contributes_nothing (before after : List Cell) (c : Cell)
    (hp : pyParse c.source = none)
    (hr : extract_imports_regex c.source = ∅) :
    extract_imports c.source = ∅ ∧
    all_imports_of (before ++ c :: after) = all_imports_of (before ++ after) := by
  have he : extract_imports c.source = ∅ := by
    simp [extract_imports, hp, hr]
  refine ⟨he, ?_⟩
  ext x
  simp only [mem_all_imports_of, List.mem_append, List.mem_cons]
  constructor
  · rintro ⟨c', hmem, hcode, hx⟩
    rcases hmem with hb | rfl | ha
    · exact ⟨c', Or.inl hb, hcode, hx⟩
    · rw [he] at hx
      exact absurd hx (Finset.not_mem_empty x)
    · exact ⟨c', Or.inr ha, hcode, hx⟩
  · rintro ⟨c', hmem, hcode, hx⟩
    rcases hmem with hb | ha
    · exact ⟨c', Or.inl hb, hcode, hx⟩
    · exact ⟨c', Or.inr (Or.inr ha), hcode, hx⟩

/-- Witness for claim C3: a cell of stray punctuation parses neither
structurally nor by pattern, contributes nothing, and leaves the
analysis of a numpy-importing neighbour cell untouched. -/
theorem unparseable_cell_contributes_nothing_witness :
    extract_imports "???" = ∅ ∧
    all_imports_of
        [{ cell_type := "code", source := "import numpy", category := "imports" },
         { cell_type := "code", source := "???", category := "general_code" }] =
      all_imports_of
        [{ cell_type := "code", source := "import numpy", category := "imports" }] :=
  unparseable_cell_contributes_nothing
    [{ cell_type := "code", source := "import numpy", category := "imports" }] []
    { cell_type := "code", source := "???", category := "general_code" }
    (by decide) (by decide)

/-- Claim C9: allDependencies is a deduplicated set: two cells each
importing numpy yield the singleton numpy set of cardinality one, and
permuting the cell sequence never changes allDependencies. -/
theorem all_dependencies_perm_invariant :
    ((analyze_dependencies
        [{ cell_type := "code", source := "import numpy", category := "imports" },
         { cell_type := "code", source := "import numpy", category := "imports" }]).all_dependencies =
      ({"numpy"} : Finset String) ∧
     (analyze_dependencies
        [{ cell_type := "code", source := "import numpy", category := "imports" },
         { cell_type := "code", source := "import numpy", category := "imports" }]).all_dependencies.card = 1) ∧
    ∀ (cells cells' : List Cell), cells.Perm cells' →
      (analyze_dependencies cells).all_dependencies =
        (analyze_dependencies cells').all_dependencies := by
  refine ⟨⟨by decide, by decide⟩, ?_⟩
  intro cells cells' hperm
  show all_imports_of cells = all_imports_of cells'
  ext x
  rw [mem_all_imports_of, mem_all_imports_of]
  constructor
  · rintro ⟨c, hc, hcode, hx⟩
    exact ⟨c, hperm.mem_iff.mp hc, hcode, hx⟩
  · rintro ⟨c, hc, hcode, hx⟩
    exact ⟨c, hperm.mem_iff.mpr hc, hcode, hx⟩

/-- Witness for claim C9: swapping two concrete cells leaves
allDependencies unchanged. -/
theorem all_dependencies_perm_invariant_witness :
    (analyze_dependencies
        [{ cell_type := "code", source := "import numpy", category := "imports" },
         { cell_type := "code", source := "import pandas", category := "imports" }]).all_dependencies =
      (analyze_dependencies
        [{ cell_type := "code", source := "import pandas", category := "imports" },
         { cell_type := "code", source := "import numpy", category := "imports" }]).all_dependencies :=
  all_dependencies_perm_invariant.2 _ _
    (List.Perm.swap
      ({ cell_type := "code", source := "import pandas", category := "imports" } : Cell)
      ({ cell_type := "code", source := "import numpy", category := "imports" } : Cell) [])

/-- Claim C5: the generated main module is, in order: the fixed header
preamble; every imports-category cell's source verbatim in document
order (followed by a separator line, all omitted when there is no
imports cell); the entry-point opening and its docstring; for each
category in the fixed order data_processing, model_training,
visualization, general_code a labeling comment followed by that
category's cells in document order with every line indented one level;
and the guarded invocation of the entry point. -/
theorem generate_main_script_structure (cells : List Cell) :
    generate_main_script cells =
      String.intercalate "\n"
        (main_header
          ++ (if doc_cells cells "imports" = [] then []
              else (doc_cells cells "imports").map Cell.source ++ ["\n"])
          ++ ["def main():", "    \"\"\"Main execution function\"\"\""]
          ++ spec_section cells "data_processing"
          ++ spec_section cells "model_training"
          ++ spec_section cells "visualization"
          ++ spec_section cells "general_code"
          ++ ["\nif __name__ == \"__main__\":", "    main()"]) := by
  have hdict : ∀ cat, categorize_cells cells cat = doc_cells cells cat :=
    categorize_cells_eq_doc_cells cells
  simp only [generate_main_script, execution_categories, List.foldl_cons, List.foldl_nil,
    section_lines, spec_section, hdict]
  by_cases h : doc_cells cells "imports" = [] <;>
    simp [h, List.append_assoc]

set_option maxHeartbeats 1000000 in
theorem categorize_code_cell_total (source : String) :
    categorize_code_cell source ∈ all_category_names := by
  simp only [categorize_code_cell]
  split_ifs <;> decide

set_option maxHeartbeats 1000000 in
theorem categorize_markdown_cell_total (source : String) :
    categorize_markdown_cell source ∈ all_category_names := by
  simp only [categorize_markdown_cell]
  split_ifs <;> decide

/-- Claim C6: classification is a total deterministic function of kind
and normalized source into the fixed category vocabulary; for code cells
the ordered keyword rules are evaluated first-match-wins over the
lower-cased source with empty short-circuiting first and general_code as
the catch-all; a markdown cell matching no heading rule and carrying no
heading marker falls through to documentation; any other kind is
other. -/
theorem assign_category_total_first_match (ct source : String) :
    assign_category ct source ∈ all_category_names ∧
    (ct = "code" → is_blank source = true → assign_category ct source = "empty") ∧
    (ct = "code" → is_blank source = false →
      assign_category ct source = first_match code_keyword_rules (pyLower source)) ∧
    (ct = "markdown" → is_blank source = false →
      (markdown_heading_rules.all
        (fun r => !(r.2.any (fun p => containsStr (pyLower source) p)))) = true →
      (strLeads (pyLower source) "#" || containsStr (pyLower source) "##") = false →
      assign_category ct source = "documentation") ∧
    (ct ≠ "code" → ct ≠ "markdown" → assign_category ct source = "other") := by
  refine ⟨?_, ?_, ?_, ?_, ?_⟩
  · by_cases hc : ct = "code"
    · simpa [assign_category, hc] using categorize_code_cell_total source
    · by_cases hm : ct = "markdown"
      · simpa [assign_category, hc, hm] using categorize_markdown_cell_total source
      · simp only [assign_category, if_neg hc, if_neg hm]
        decide
  · intro hct hb
    subst hct
    simp [assign_category, categorize_code_cell, hb]
  · intro hct hb
    subst hct
    simp [assign_category, categorize_code_cell, hb, first_match, code_keyword_rules]
  · intro hct hb hrules hsec
    subst hct
    simp only [markdown_heading_rules, List.all_cons, List.all_nil, Bool.and_true,
      Bool.and_eq_true, Bool.not_eq_true'] at hrules
    obtain ⟨h1, h2, h3, h4, h5, h6⟩ := hrules
    simp only [Bool.or_eq_false_iff] at hsec
    obtain ⟨hs1, hs2⟩ := hsec
    simp [assign_category, categorize_markdown_cell, hb, h1, h2, h3, h4, h5, h6, hs1, hs2]
  · intro h1 h2
    simp [assign_category, h1, h2]

/-- Witness for claim C6: concrete instantiations of the catch-all
clauses: a raw cell is other, a plain code assignment follows the rule
list to general_code, and plain markdown prose is documentation. -/
theorem assign_category_total_first_match_witness :
    assign_category "raw" "cell magic" = "other" ∧
    assign_category "code" "x = 1" = first_match code_keyword_rules (pyLower "x = 1") ∧
    assign_category "markdown" "just prose" = "documentation" :=
  ⟨(assign_category_total_first_match "raw" "cell magic").2.2.2.2 (by decide) (by decide),
   (assign_category_total_first_match "code" "x = 1").2.2.1 rfl (by decide),
   (assign_category_total_first_match "markdown" "just prose").2.2.2.1 rfl (by decide)
     (by decide) (by decide)⟩

end MLOpsConverter




